import Mathlib

/-!
Formal model of the query orchestration and normalization core of the
perucheck application (source: src/app/(tabs)/index.tsx).

The JavaScript/TypeScript source is shallowly embedded: JSON payloads become
the inductive type JsonVal with JavaScript truthiness and string coercion,
the pure response normalizers become Lean functions over strings and
JsonVal, and the stateful fetchService orchestrator becomes a pure function
from an explicit environment (usage snapshot, session, per-service state,
transport outcome) to a structured result recording the state writes,
ledger writes, alerts and whether a transport call was issued.
-/

set_option maxRecDepth 4000

/-- Decoded JSON value as handled by the JavaScript code. -/
inductive JsonVal where
  | null
  | bool (b : Bool)
  | num (n : Int)
  | str (s : String)
  | arr (xs : List JsonVal)
  | obj (fields : List (String × JsonVal))

/-- Optional-chaining property access: object field lookup, undefined otherwise. -/
def getField : JsonVal → String → Option JsonVal
  | .obj fs, k =>
    match fs.find? (fun p => p.1 = k) with
    | some p => some p.2
    | none => none
  | _, _ => none

/-- JavaScript truthiness of a value. -/
def jsTruthy : JsonVal → Bool
  | .null => false
  | .bool b => b
  | .num n => n != 0
  | .str s => s != ""
  | .arr _ => true
  | .obj _ => true

/-- JavaScript truthiness of a possibly-undefined value. -/
def jsTruthyOpt : Option JsonVal → Bool
  | none => false
  | some v => jsTruthy v

mutual

/-- JavaScript string coercion of a value. -/
def jsToString : JsonVal → String
  | .null => "null"
  | .bool b => if b then "true" else "false"
  | .num n => toString n
  | .str s => s
  | .arr xs => String.intercalate "," (jsToStringList xs)
  | .obj _ => "[object Object]"

/-- String coercion of each element of a list of values. -/
def jsToStringList : List JsonVal → List String
  | [] => []
  | v :: vs => jsToString v :: jsToStringList vs

end

/-- JavaScript a || b for a possibly-undefined a and a defined fallback. -/
def jsOrVal (a : Option JsonVal) (b : JsonVal) : JsonVal :=
  match a with
  | some v => if jsTruthy v then v else b
  | none => b

/-- JavaScript nullish coalescing a ?? b on possibly-undefined values. -/
def jsCoalesce (a : Option JsonVal) (b : Option JsonVal) : Option JsonVal :=
  match a with
  | some .null => b
  | some v => some v
  | none => b

/-- First truthy value among an ordered list of candidate field reads. -/
def jsOrChain : List (JsonVal × String) → Option JsonVal
  | [] => none
  | (p, k) :: rest =>
    match getField p k with
    | some v => if jsTruthy v then some v else jsOrChain rest
    | none => jsOrChain rest

/-- Ordered-candidate field resolution coerced to a string, empty fallback. -/
def pickStr2 (pairs : List (JsonVal × String)) : String :=
  match jsOrChain pairs with
  | some v => jsToString v
  | none => ""

/-- Ordered-candidate field resolution over one base object. -/
def pickStr (p : JsonVal) (keys : List String) : String :=
  pickStr2 (keys.map (fun k => (p, k)))

/-- Truthiness of an optional string (undefined or empty string is falsy). -/
def truthyS : Option String → Bool
  | none => false
  | some s => s != ""

/-- JavaScript a || b on optional strings. -/
def orStr (a b : Option String) : Option String :=
  if truthyS a then a else b

/-- Strict equality with true, or the string form used by the source. -/
def isTrueLike : Option JsonVal → Bool
  | some (.bool true) => true
  | some (.str s) => s == "true"
  | _ => false

/-! Character-level string toolkit mirroring the JavaScript string and regex
operations used by the source. All functions are structurally recursive so
that concrete inputs evaluate inside the kernel. -/

/-- Whitespace characters removed by trim (space, tab, newlines, feeds). -/
def isWsChar (c : Char) : Bool :=
  c == ' ' || c == '\t' || c == '\n' || c == '\r' || c.toNat == 11 || c.toNat == 12

/-- Uppercase one ASCII character. -/
def upC (c : Char) : Char :=
  if 'a' ≤ c && c ≤ 'z' then Char.ofNat (c.toNat - 32) else c

/-- Lowercase one ASCII character. -/
def loC (c : Char) : Char :=
  if 'A' ≤ c && c ≤ 'Z' then Char.ofNat (c.toNat + 32) else c

/-- ASCII uppercase of a string. -/
def upStr (s : String) : String := String.mk (s.data.map upC)

/-- ASCII lowercase of a string. -/
def loStr (s : String) : String := String.mk (s.data.map loC)

/-- Split a character list at every occurrence of a separator. -/
def splitOnChar (sep : Char) : List Char → List (List Char)
  | [] => [[]]
  | c :: rest =>
    let r := splitOnChar sep rest
    if c == sep then [] :: r
    else
      match r with
      | h :: t => (c :: h) :: t
      | [] => [[c]]

/-- Drop leading and trailing whitespace. -/
def trimChars (l : List Char) : List Char :=
  ((l.dropWhile isWsChar).reverse.dropWhile isWsChar).reverse

/-- String trim as used by the source. -/
def trimStr (s : String) : String := String.mk (trimChars s.data)

/-- Substring containment on character lists. -/
def containsList (needle : List Char) : List Char → Bool
  | [] => needle.isPrefixOf ([] : List Char)
  | c :: t => needle.isPrefixOf (c :: t) || containsList needle t

/-- JavaScript includes on strings. -/
def containsStr (hay needle : String) : Bool := containsList needle.data hay.data

/-- Case-insensitive containment: toLowerCase().includes(needle). -/
def lowerIncludes (l needle : String) : Bool := containsStr (loStr l) needle

/-- Newline split, per-line trim, drop blank lines (split, map trim, filter). -/
def trimmedLines (raw : String) : List String :=
  ((splitOnChar '\n' raw.data).map (fun l => String.mk (trimChars l))).filter
    (fun l => l != "")

/-- Tab split with empty columns dropped (split on runs of tabs, filter). -/
def tabCols (l : String) : List String :=
  ((splitOnChar '\t' l.data).map String.mk).filter (fun t => t != "")

/-- Match the date pattern two digits, slash, two digits, slash, four digits
at the head of a character list. -/
def dateMatchAt (cs : List Char) : Option String :=
  match cs with
  | d1 :: d2 :: s1 :: m1 :: m2 :: s2 :: y1 :: y2 :: y3 :: y4 :: _ =>
    if d1.isDigit && d2.isDigit && s1 == '/' && m1.isDigit && m2.isDigit &&
        s2 == '/' && y1.isDigit && y2.isDigit && y3.isDigit && y4.isDigit then
      some (String.mk [d1, d2, '/', m1, m2, '/', y1, y2, y3, y4])
    else none
  | _ => none

/-- Fuel-driven scan for all non-overlapping date tokens, left to right. -/
def findDatesAux : Nat → List Char → List String
  | 0, _ => []
  | _ + 1, [] => []
  | f + 1, c :: rest =>
    match dateMatchAt (c :: rest) with
    | some m => m :: findDatesAux f (rest.drop 9)
    | none => findDatesAux f rest

/-- All date-shaped tokens of a character list, in order. -/
def findDates (cs : List Char) : List String := findDatesAux cs.length cs

/-- Whether the date regex tests true somewhere in the list. -/
def hasDateToken : List Char → Bool
  | [] => false
  | c :: t => (dateMatchAt (c :: t)).isSome || hasDateToken t

/-- Case-insensitive literal prefix match (pattern given in lowercase). -/
def caselessPrefix (pat : List Char) (cs : List Char) : Bool :=
  pat.isPrefixOf ((cs.take pat.length).map loC)

/-- Attempt the inspection-center regex match at the head of the list:
the literal with optional second C, then one or more characters that are
neither comma nor newline. -/
def centroAt (cs : List Char) : Option String :=
  let try20 := caselessPrefix "centro de inspeccion".data cs
  let try19 := caselessPrefix "centro de inspecion".data cs
  let n := if try20 then 20 else if try19 then 19 else 0
  if n == 0 then none
  else
    let taken := (cs.drop n).takeWhile (fun c => c != ',' && c != '\n')
    if taken.isEmpty then none
    else some (String.mk (cs.take n ++ taken))

/-- First inspection-center match anywhere in the list. -/
def centroFrom : List Char → Option String
  | [] => none
  | c :: t =>
    match centroAt (c :: t) with
    | some s => some s
    | none => centroFrom t

/-- Remove the first match of the owner-label regex: the literal propietario,
an optional colon, then any whitespace run, case-insensitively. -/
def replacePropietario : List Char → List Char
  | [] => []
  | c :: t =>
    if caselessPrefix "propietario".data (c :: t) then
      let r1 := (c :: t).drop 11
      let r2 := match r1 with
        | ':' :: t2 => t2
        | _ => r1
      r2.dropWhile isWsChar
    else c :: replacePropietario t

/-- Remove the first dash of a character list (replace with empty string). -/
def remFirstDash : List Char → List Char
  | [] => []
  | c :: t => if c == '-' then t else c :: remFirstDash t

/-- JavaScript replace of the first dash by the empty string. -/
def removeFirstDash (s : String) : String := String.mk (remFirstDash s.data)

/-- Alphanumeric ASCII character class of the plate formatter. -/
def isAlnum (c : Char) : Bool :=
  ('A' ≤ c && c ≤ 'Z') || ('a' ≤ c && c ≤ 'z') || ('0' ≤ c && c ≤ '9')

/-- formatPlate: keep alphanumerics, uppercase, cap at six, dash after three. -/
def formatPlate (value : String) : String :=
  let clean := ((value.data.filter isAlnum).map upC).take 6
  String.mk (clean.take 3 ++ (if 3 < clean.length then ['-'] else []) ++
    ((clean.drop 3).take 3))

/-- formatDni: keep digits, cap at eight. -/
def formatDni (value : String) : String :=
  String.mk ((value.data.filter Char.isDigit).take 8)

/-! Response normalizer record types, one per upstream service. -/

/-- Normalized insurance record. -/
structure SoatData where
  aseguradora : String
  clase : String
  uso : String
  accidentes : String
  poliza : String
  certificado : String
  inicio : String
  fin : String
  infoActualizada : Option String
deriving Repr

/-- Normalized inspection record. -/
structure ItvData where
  inicio : Option String
  fin : Option String
  estado : Option String
  vigencia : Option String
  centro : Option String
deriving Repr

/-- Normalized identity record of the national-id service. -/
structure DniPeruData where
  nombres : String
  apellidoPaterno : String
  apellidoMaterno : String
  codigoVerificacion : String
  direccion : String
deriving Repr

/-- Identity data attached to an owner by the enricher: the parsed record
plus the document number added on a successful composed name. -/
structure OwnerReniec where
  info : DniPeruData
  dni : Option String
deriving Repr

/-- One owner entry of the registry-ownership record. -/
structure SunarpOwner where
  nombre : String
  documento : Option String
  porcentaje : Option String
  condicion : Option String
  reniec : Option OwnerReniec
deriving Repr

/-- Normalized vehicle-registry ownership record. -/
structure SunarpData where
  propietarios : List SunarpOwner
  coincidencias : List SunarpOwner
  dniPropietario : Option String
  propietarioUsado : Option String
  placa : String
  vin : String
  partida : String
  oficina : String
  captchaDetectado : Option String
  captchaValido : Bool
  imagenResultado : String
deriving Repr

/-- Normalized driver-license record. -/
structure LicenciaData where
  numero : String
  clase : String
  restricciones : String
  estado : String
  vencimiento : String
  nombres : String
  puntosFirmes : String
  infracciones : String
  graves : String
  muyGraves : String
  tramites : JsonVal
  bonificaciones : JsonVal

/-- Normalized debt-registry summary. -/
structure RedamData where
  total : Nat
  detalle : List JsonVal

/-! parseSoat and its row selection helpers. -/

/-- Extraction of the updated-info line: find the line, split on colons,
join the tail, trim, empty becomes undefined. -/
def soatInfo (lines : List String) : Option String :=
  match lines.find? (fun l => lowerIncludes l "información actualizada") with
  | none => none
  | some l =>
    let v := trimStr (String.intercalate ":" ((splitOnChar ':' l.data).map
      String.mk |>.drop 1))
    if v = "" then none else some v

/-- Row selection: first data line with at least five tab columns after the
header line when a header is found, else the first such line anywhere. -/
def soatRow (lines : List String) : Option String :=
  let fromHeader :=
    match lines.findIdx? (fun l => lowerIncludes l "compañía aseguradora") with
    | some i => (lines.drop (i + 1)).find? (fun l => 5 ≤ (tabCols l).length)
    | none => none
  match fromHeader with
  | some r => some r
  | none => lines.find? (fun l => 5 ≤ (tabCols l).length)

/-- parseSoat: tolerant tabular extraction of the insurance response. -/
def parseSoat (raw : String) : Option SoatData :=
  let lines := trimmedLines raw
  let infoActualizada := soatInfo lines
  match soatRow lines with
  | none => none
  | some row =>
    let parts := tabCols row
    if parts.length < 8 then none
    else some
      { aseguradora := parts.getD 0 "", clase := parts.getD 1 "",
        uso := parts.getD 2 "", accidentes := parts.getD 3 "",
        poliza := parts.getD 4 "", certificado := parts.getD 5 "",
        inicio := parts.getD 6 "", fin := parts.getD 7 "",
        infoActualizada := infoActualizada }

/-! parseItv and its helpers. -/

/-- Plate taken from the payload, uppercased, empty when absent. -/
def itvPlateUpper (full : JsonVal) : String :=
  match getField full "placa" with
  | none => ""
  | some .null => ""
  | some v => upStr (jsToString v)

/-- Row selection: the first line containing the plate when one is given,
else the first line containing a date-shaped token. -/
def itvRow (raw : String) (full : JsonVal) : Option String :=
  (trimmedLines raw).find? (fun l =>
    if itvPlateUpper full != "" then containsStr l (itvPlateUpper full)
    else hasDateToken l.data)

/-- Tab columns of the selected row, empty when no row matched. -/
def itvTokens (raw : String) (full : JsonVal) : List String :=
  match itvRow raw full with
  | some r => tabCols r
  | none => []

/-- Textual status: column five, else column four, of the selected row. -/
def itvEstadoText (raw : String) (full : JsonVal) : Option String :=
  match (itvTokens raw full).get? 5 with
  | some s => some s
  | none => (itvTokens raw full).get? 4

/-- Strict boolean validity flag of the payload. -/
def itvVigenteFlag (full : JsonVal) : Option Bool :=
  match getField full "vigente" with
  | some (.bool b) => some b
  | _ => none

/-- Status inference: the boolean flag wins for the vigencia field, with the
textual status as the fallback. -/
def itvVigencia (raw : String) (full : JsonVal) : Option String :=
  match getField full "vigente" with
  | some (.bool true) => some "Vigente"
  | some (.bool false) => some "Vencido"
  | _ => itvEstadoText raw full

/-- Fallback extraction: the first two date tokens anywhere in the blob. -/
def itvFallbackInicio (raw : String) : Option String :=
  if 2 ≤ (findDates raw.data).length then (findDates raw.data).get? 0 else none

/-- Second date token of the fallback extraction. -/
def itvFallbackFin (raw : String) : Option String :=
  if 2 ≤ (findDates raw.data).length then (findDates raw.data).get? 1 else none

/-- Inspection-center match over the raw blob. -/
def itvCentro (raw : String) : Option String := centroFrom raw.data

/-- parseItv: inspection normalizer with positional columns, date fallback
and boolean status inference. -/
def parseItv (raw : String) (full : JsonVal) : Option ItvData :=
  let inicio := (itvTokens raw full).get? 2
  let fin := (itvTokens raw full).get? 3
  let estado := itvEstadoText raw full
  let vigencia := itvVigencia raw full
  if truthyS inicio || truthyS fin || truthyS (itvFallbackInicio raw) ||
      truthyS (itvFallbackFin raw) || truthyS estado || truthyS vigencia ||
      (itvCentro raw).isSome then
    some { inicio := orStr inicio (itvFallbackInicio raw),
           fin := orStr fin (itvFallbackFin raw),
           estado := orStr estado vigencia,
           vigencia := vigencia,
           centro := itvCentro raw }
  else none

/-! parseSunarp and its helpers. -/

/-- Payload base object: the datos field when truthy, else the payload. -/
def sunarpDatos (full : JsonVal) : JsonVal := jsOrVal (getField full "datos") full

/-- A truthy field value coerced to a string (filter Boolean on reads). -/
def truthyToStr (o : Option JsonVal) : Option String :=
  match o with
  | some v => if jsTruthy v then some (jsToString v) else none
  | none => none

/-- Owner entry built from one element of the owners array. -/
def ownerOfRawJson (p : JsonVal) : Option SunarpOwner :=
  let nombreVal := jsOrChain
    [(p, "nombre"), (p, "nombres"), (p, "propietario"), (p, "razon_social")]
  let documento := trimStr (pickStr p ["documento", "dni", "ruc", "doc"])
  let porcentaje := pickStr p ["porcentaje", "participacion"]
  let condicion := pickStr p ["condicion", "calidad"]
  if nombreVal.isSome || documento != "" then
    some { nombre := match nombreVal with
             | some v => jsToString v
             | none => "Propietario",
           documento := some documento, porcentaje := some porcentaje,
           condicion := some condicion, reniec := none }
  else none

/-- Owner entry built from one element of the detail array. -/
def detalleOwner (p : JsonVal) : Option SunarpOwner :=
  let texto := pickStr p ["texto"]
  let partes := trimStr (String.intercalate " "
    ([getField p "ap_paterno", getField p "ap_materno",
      getField p "nombres"].filterMap truthyToStr))
  let nombre := if partes != "" then partes else texto
  if nombre != "" then
    some { nombre := nombre,
           documento := (let d := trimStr (pickStr p ["documento"]);
             if d = "" then none else some d),
           porcentaje := none, condicion := some (pickStr p ["condicion"]),
           reniec := none }
  else none

/-- Match entry built from one element of the coincidences array. -/
def coincOwner (c : JsonVal) : Option SunarpOwner :=
  let nombre := trimStr (String.intercalate " "
    ([getField c "nombres", getField c "ap_paterno", getField c "ap_materno",
      getField c "texto"].filterMap truthyToStr))
  let documento := trimStr (pickStr c ["dni", "documento"])
  if nombre != "" || documento != "" then
    some { nombre := if nombre != "" then nombre else "Coincidencia",
           documento := some documento, porcentaje := none, condicion := none,
           reniec := none }
  else none

/-- Match entry built from one element of the search results array. -/
def busqOwner (c : JsonVal) : Option SunarpOwner :=
  let nombre := trimStr (String.intercalate " "
    ([getField c "nombres", getField c "ap_paterno",
      getField c "ap_materno"].filterMap truthyToStr))
  let documento := trimStr (pickStr c ["dni"])
  if nombre != "" || documento != "" then
    some { nombre := if nombre != "" then nombre else "Coincidencia",
           documento := some documento, porcentaje := none, condicion := none,
           reniec := none }
  else none

/-- Raw-text fallback: up to three trimmed lines mentioning the owner label,
with the label prefix stripped. -/
def sunarpLineOwners (raw : String) : List SunarpOwner :=
  (((trimmedLines raw).filter (fun l => lowerIncludes l "propietario")).take
      3).filterMap (fun linea =>
    let limpio := trimStr (String.mk (replacePropietario linea.data))
    if limpio != "" then
      some { nombre := limpio, documento := none, porcentaje := none,
             condicion := none, reniec := none }
    else none)

/-- Owner list: array and detail entries, with the raw-text fallback only
when both leave the list empty. -/
def sunarpPropietarios (raw : String) (full : JsonVal) : List SunarpOwner :=
  let datos := sunarpDatos full
  let rawVal := match jsOrChain [(datos, "propietarios"), (datos, "titulares"),
      (datos, "propietario"), (datos, "titular")] with
    | some v => v
    | none => .arr []
  let detalleVal := match jsOrChain [(datos, "propietarios_detalle"),
      (datos, "propietariosDetalles")] with
    | some v => v
    | none => .arr []
  let base := (match rawVal with
    | .arr ps => ps.filterMap ownerOfRawJson
    | .str s => if trimStr s != "" then
        [{ nombre := trimStr s, documento := none, porcentaje := none,
           condicion := none, reniec := none }]
      else []
    | _ => []) ++ (match detalleVal with
    | .arr ps => ps.filterMap detalleOwner
    | _ => [])
  if base.isEmpty then sunarpLineOwners raw else base

/-- Coincidence list: declared coincidences plus search results. -/
def sunarpCoincidencias (full : JsonVal) : List SunarpOwner :=
  let datos := sunarpDatos full
  let cVal := match jsOrChain [(datos, "dni_propietario_coincidentes"),
      (datos, "propietarios_coincidentes")] with
    | some v => v
    | none => .arr []
  let bVal := jsOrVal
    (match getField datos "dni_propietario_buscar" with
     | some v => getField v "resultados"
     | none => none) (.arr [])
  (match cVal with
   | .arr cs => cs.filterMap coincOwner
   | _ => []) ++ (match bVal with
   | .arr cs => if cs.isEmpty then [] else cs.filterMap busqOwner
   | _ => [])

/-- Plate field of the ownership payload. -/
def sunarpPlaca (full : JsonVal) : String :=
  pickStr (sunarpDatos full) ["placa", "placa_rodaje"]

/-- Vehicle identification number field. -/
def sunarpVin (full : JsonVal) : String :=
  pickStr (sunarpDatos full) ["vin", "vin_vehicular", "numero_vin"]

/-- Registry entry number field. -/
def sunarpPartida (full : JsonVal) : String :=
  pickStr (sunarpDatos full) ["partida", "nro_partida"]

/-- Registry office field. -/
def sunarpOficina (full : JsonVal) : String :=
  pickStr (sunarpDatos full) ["oficina", "zona", "zona_registral"]

/-- Owner document number: coerced, trimmed, empty becomes undefined. -/
def sunarpDniPropietario (full : JsonVal) : Option String :=
  let s := trimStr (pickStr (sunarpDatos full) ["dni_propietario"])
  if s = "" then none else some s

/-- Composed name of the owner whose document was used for the search. -/
def sunarpPropietarioUsado (full : JsonVal) : Option String :=
  match getField (sunarpDatos full) "propietario_usado_para_dni" with
  | some v =>
    if jsTruthy v then
      some (trimStr (String.intercalate " "
        ([getField v "nombres", getField v "ap_paterno",
          getField v "ap_materno"].filterMap truthyToStr)))
    else none
  | none => none

/-- parseSunarp: ownership normalizer over the decoded payload with a
raw-text fallback for owner lines. -/
def parseSunarp (raw : String) (full : JsonVal) : Option SunarpData :=
  let props := sunarpPropietarios raw full
  let coins := sunarpCoincidencias full
  if props.isEmpty && coins.isEmpty &&
      !(sunarpPlaca full != "" || sunarpVin full != "" ||
        sunarpPartida full != "" || sunarpOficina full != "") then none
  else some
    { propietarios := props, coincidencias := coins,
      dniPropietario := sunarpDniPropietario full,
      propietarioUsado := sunarpPropietarioUsado full,
      placa := sunarpPlaca full, vin := sunarpVin full,
      partida := sunarpPartida full, oficina := sunarpOficina full,
      captchaDetectado := (jsOrChain [(sunarpDatos full, "captcha_detectado"),
        (full, "captcha_detectado")]).map jsToString,
      captchaValido := isTrueLike (jsCoalesce
        (getField (sunarpDatos full) "captcha_valido")
        (getField full "captcha_valido")),
      imagenResultado := pickStr2 [(sunarpDatos full, "imagen_resultado_src"),
        (full, "imagen_resultado_src")] }

/-! Person-scope normalizers. -/

/-- parseLicencia: driver-license normalizer over datos and resumen. -/
def parseLicencia (raw : String) (full : JsonVal) : LicenciaData :=
  let datos := jsOrVal (getField full "datos") full
  let resumen := jsOrVal (getField full "resumen") (.obj [])
  { numero := pickStr datos ["licencia", "numero"],
    clase := pickStr datos ["clase", "categoria"],
    restricciones := pickStr2 [(datos, "restricciones"), (resumen, "restricciones")],
    estado := pickStr2 [(datos, "estado"), (resumen, "estado_licencia")],
    vencimiento := pickStr2 [(datos, "fecha_revalidacion"), (datos, "vencimiento"),
      (resumen, "vigente_hasta"), (resumen, "vencimiento")],
    nombres := pickStr2 [(datos, "nombres"), (datos, "nombre_completo"),
      (resumen, "administrado")],
    puntosFirmes := pickStr2 [(resumen, "puntos_firmes"), (resumen, "puntosFirmes")],
    infracciones := pickStr2 [(resumen, "infracciones_acumuladas"),
      (resumen, "infracciones")],
    graves := pickStr resumen ["graves"],
    muyGraves := pickStr resumen ["muy_graves"],
    tramites := jsOrVal (getField full "tabla_tramites") (.arr []),
    bonificaciones := jsOrVal (getField full "tabla_bonificacion") (.arr []) }

/-- parseDniPeru: identity normalizer over the datos object. -/
def parseDniPeru (raw : String) (full : JsonVal) : DniPeruData :=
  let datos := jsOrVal (getField full "datos") full
  { nombres := pickStr datos ["nombres", "nombre_completo"],
    apellidoPaterno := pickStr datos ["apellido_paterno"],
    apellidoMaterno := pickStr datos ["apellido_materno"],
    codigoVerificacion := pickStr datos ["codigo_verificacion"],
    direccion := pickStr datos ["direccion"] }

/-- parseRedam: debt-registry normalizer counting the records array. -/
def parseRedam (raw : String) (full : JsonVal) : RedamData :=
  let datos := jsOrVal (getField full "datos") full
  let items := jsOrVal (getField datos "registros") (.arr [])
  { total := match items with
      | .arr xs => xs.length
      | _ => 0,
    detalle := match items with
      | .arr xs => xs.take 3
      | _ => [] }

/-! Service registry. -/

/-- Query field expected by a service. -/
inductive QueryField where
  | placa
  | dni
deriving DecidableEq, Repr

/-- Entity scope of a service. -/
inductive Scope where
  | vehiculo
  | persona
deriving DecidableEq, Repr

/-- Tagged union of the normalizer outputs stored in the parsed slot. -/
inductive ParsedVal where
  | soat (d : SoatData)
  | itv (d : ItvData)
  | sunarp (d : SunarpData)
  | licencia (d : LicenciaData)
  | dniperu (d : DniPeruData)
  | redam (d : RedamData)

/-- Registry entry: endpoint, optional normalizer, field and scope. -/
structure ServiceConfig where
  endpoint : String
  parser : Option (String → JsonVal → Option ParsedVal)
  field : QueryField
  scope : Scope

/-- Insurance registry entry. -/
def soatConfig : ServiceConfig :=
  ⟨"http://localhost:8000/consulta-soat",
    some (fun raw _ => (parseSoat raw).map .soat), .placa, .vehiculo⟩

/-- Inspection registry entry. -/
def itvConfig : ServiceConfig :=
  ⟨"http://localhost:8000/consulta-itv",
    some (fun raw full => (parseItv raw full).map .itv), .placa, .vehiculo⟩

/-- Lima tax-authority registry entry (no normalizer). -/
def satlimaConfig : ServiceConfig :=
  ⟨"http://localhost:8000/consulta-sat", none, .placa, .vehiculo⟩

/-- Callao tax-authority registry entry (no normalizer). -/
def satcallaoConfig : ServiceConfig :=
  ⟨"http://localhost:8000/consulta-sat-callao", none, .placa, .vehiculo⟩

/-- Transport-supervision registry entry (no normalizer). -/
def sutranConfig : ServiceConfig :=
  ⟨"http://localhost:8000/consulta-sutran", none, .placa, .vehiculo⟩

/-- Vehicle-registry ownership entry. -/
def sunarpConfig : ServiceConfig :=
  ⟨"http://localhost:8000/consulta-vehicular",
    some (fun raw full => (parseSunarp raw full).map .sunarp), .placa, .vehiculo⟩

/-- Driver-license registry entry. -/
def licenciaConfig : ServiceConfig :=
  ⟨"http://localhost:8000/consulta-licencia-dni",
    some (fun raw full => some (.licencia (parseLicencia raw full))), .dni, .persona⟩

/-- National-id identity registry entry. -/
def dniperuConfig : ServiceConfig :=
  ⟨"http://localhost:8000/consulta-dni-peru",
    some (fun raw full => some (.dniperu (parseDniPeru raw full))), .dni, .persona⟩

/-- Debt-registry entry. -/
def redamConfig : ServiceConfig :=
  ⟨"http://localhost:8000/consulta-redam-dni",
    some (fun raw full => some (.redam (parseRedam raw full))), .dni, .persona⟩

/-- Static registry mapping a service identifier to its entry. -/
def serviceConfigs : String → Option ServiceConfig
  | "soat" => some soatConfig
  | "itv" => some itvConfig
  | "satlima" => some satlimaConfig
  | "satcallao" => some satcallaoConfig
  | "sutran" => some sutranConfig
  | "sunarp" => some sunarpConfig
  | "licencia" => some licenciaConfig
  | "dniperu" => some dniperuConfig
  | "redam" => some redamConfig
  | _ => none

/-- Normalizer of a registered service applied to a response. -/
def runParser (key : String) (raw : String) (full : JsonVal) : Option ParsedVal :=
  match serviceConfigs key with
  | some cfg =>
    match cfg.parser with
    | some f => f raw full
    | none => none
  | none => none

/-! Cross-source enricher. The per-owner identity lookup is abstracted as an
oracle from the formatted document number to the decoded response, with
undefined standing for any transport, status or decode failure. -/

/-- Raw text passed to a normalizer: the resultado_crudo field or empty. -/
def rawCrudo (data : JsonVal) : String :=
  match getField data "resultado_crudo" with
  | some .null => ""
  | none => ""
  | some v => jsToString v

/-- Enrich one owner: skip owners without a usable eight-digit document,
return the owner unchanged when the lookup fails, else attach the parsed
identity, keeping the original name when one exists. -/
def enrichOwner (lookup : String → Option JsonVal) (prop : SunarpOwner) :
    SunarpOwner :=
  let dni := formatDni (prop.documento.getD "")
  if dni = "" || dni.length < 8 then prop
  else
    match lookup dni with
    | none => prop
    | some data =>
      let parsedDni := parseDniPeru (rawCrudo data) data
      let nombreDni := trimStr (parsedDni.nombres ++ " " ++
        parsedDni.apellidoPaterno ++ " " ++ parsedDni.apellidoMaterno)
      if nombreDni != "" then
        { prop with
          nombre := if prop.nombre != "" then prop.nombre else nombreDni,
          reniec := some ⟨parsedDni, some dni⟩ }
      else { prop with reniec := some ⟨parsedDni, none⟩ }

/-- enrichSunarpWithDni: enrich every owner of an ownership record through
the identity service, settling all lookups and tolerating per-owner failure. -/
def enrichSunarpWithDni (lookup : String → Option JsonVal) :
    Option SunarpData → Option SunarpData
  | none => none
  | some parsed =>
    if parsed.propietarios.isEmpty then some parsed
    else
      match serviceConfigs "dniperu" with
      | none => some parsed
      | some cfg =>
        if cfg.endpoint = "" then some parsed
        else some { parsed with
          propietarios := parsed.propietarios.map (enrichOwner lookup) }

/-- Post-parse enrichment step of the orchestrator for the ownership
service: other parsed shapes pass through unchanged. -/
def enrichStep (lookup : String → Option JsonVal) :
    Option ParsedVal → Option ParsedVal
  | some (.sunarp s) => (enrichSunarpWithDni lookup (some s)).map ParsedVal.sunarp
  | v => v

/-! Credit gate and orchestrator state. -/

/-- Usage snapshot read by the credit gate (shape from the billing
collaborator interface: credits, plan, expiry). -/
structure UsageSnapshot where
  creditsRemaining : Option Int
  planName : Option String
  validUntil : Option String

/-- hasCredits: true without a snapshot, with a null balance, or with a
strictly positive balance. -/
def hasCredits (usage : Option UsageSnapshot) : Bool :=
  match usage with
  | none => true
  | some u =>
    match u.creditsRemaining with
    | none => true
    | some c => 0 < c

/-- Per-service query state as stored by the state store. -/
structure ServiceState where
  loading : Bool
  error : Option String
  data : Option JsonVal
  parsed : Option ParsedVal
  query : Option String
  fetchedAt : Option Nat

/-- Initial per-service state: not loading, no data, no error. -/
def initialServiceState : ServiceState := ⟨false, none, none, none, none, none⟩

/-- Ledger entry written through registerConsulta for one attempt. -/
structure LedgerEntry where
  userId : String
  serviceKey : String
  placa : Option String
  dni : Option String
  payloadField : QueryField
  payloadValue : String
  respuesta : Option JsonVal
  resumen : String
  success : Bool
  errorCode : Option String
  durationMs : Nat
  rawPath : String

/-- Outcome of the single transport call of an attempt: a decoded body, or
a failure carrying the thrown message when one exists. -/
inductive TransportResult where
  | ok (data : JsonVal)
  | fail (msg : Option String)

/-- Whether the transport call succeeded. -/
def transportOk : TransportResult → Bool
  | .ok _ => true
  | .fail _ => false

/-- Environment of one fetchService run: component state, session, usage
snapshot, the transport outcome and the identity-lookup oracle. -/
structure FetchEnv where
  usage : Option UsageSnapshot
  sessionUserId : Option String
  plateInput : String
  personaDoc : String
  current : ServiceState
  transport : TransportResult
  dniLookup : String → Option JsonVal
  startedAt : Nat
  settledAt : Nat
  ledgerAt : Nat

/-- User-facing alert surfaced by an aborted attempt. -/
inductive AlertKind where
  | quota
  | shape
deriving DecidableEq, Repr

/-- Observable outcome of one fetchService run: whether the transport was
invoked, the state writes in order, the ledger writes, the surfaced alert
and whether the usage snapshot was refreshed. -/
structure FetchResult where
  calledTransport : Bool
  writes : List ServiceState
  ledger : List LedgerEntry
  alert : Option AlertKind
  refreshedUsage : Bool

/-- Whether a session user id is present and truthy. -/
def sessionActive (env : FetchEnv) : Bool :=
  match env.sessionUserId with
  | some s => s != ""
  | none => false

/-- Query value: the supplied one, else derived from the current inputs. -/
def deriveQueryValue (cfg : ServiceConfig) (env : FetchEnv)
    (value : Option String) : String :=
  match value with
  | some v => v
  | none =>
    match cfg.field with
    | .placa => removeFirstDash (formatPlate env.plateInput)
    | .dni => formatDni env.personaDoc

/-- Minimum accepted length of a query value per field type. -/
def minLen : QueryField → Nat
  | .placa => 6
  | .dni => 8

/-- Cache-hit test: not forced, same stored query, truthy data, no error,
not loading. -/
def cacheHit (st : ServiceState) (qv : String) (force : Bool) : Bool :=
  !force && (st.query == some qv) && jsTruthyOpt st.data &&
    !(truthyS st.error) && !st.loading

/-- State written when an attempt transitions to loading (partial update of
the current state). -/
def loadingWrite (st : ServiceState) (qv : String) : ServiceState :=
  { st with loading := true, error := none, query := some qv }

/-- Executed part of an attempt, after all guards passed: transport call,
normalization, enrichment for the ownership service, the two state writes,
and the unconditional ledger write when a session user is present. -/
def executeFetch (env : FetchEnv) (key : String) (cfg : ServiceConfig)
    (qv : String) : FetchResult :=
  let resumen := match cfg.field with
    | .placa => upStr key ++ " " ++ formatPlate env.plateInput
    | .dni => upStr key ++ " " ++ qv
  let entry := fun (success : Bool) (respuesta : Option JsonVal)
      (errorCode : Option String) =>
    ({ userId := env.sessionUserId.getD "", serviceKey := key,
       placa := match cfg.field with
         | .placa => some qv
         | .dni => none,
       dni := match cfg.field with
         | .dni => some qv
         | .placa => none,
       payloadField := cfg.field, payloadValue := qv, respuesta := respuesta,
       resumen := resumen, success := success, errorCode := errorCode,
       durationMs := env.ledgerAt - env.startedAt,
       rawPath := cfg.endpoint } : LedgerEntry)
  match env.transport with
  | .ok data =>
    let parsed0 := match cfg.parser with
      | some f => f (rawCrudo data) data
      | none => none
    let parsed := if key = "sunarp" then enrichStep env.dniLookup parsed0
      else parsed0
    ⟨true,
      [loadingWrite env.current qv,
        ⟨false, none, some data, parsed, some qv, some env.settledAt⟩],
      if sessionActive env then [entry true (some data) none] else [],
      none, sessionActive env⟩
  | .fail msg =>
    let errorMessage := msg.getD "Error consultando"
    ⟨true,
      [loadingWrite env.current qv,
        ⟨false, some errorMessage, none, none, some qv, some env.settledAt⟩],
      if sessionActive env then [entry false none (some errorMessage)] else [],
      none, sessionActive env⟩

/-- fetchService: registry check, credit gate, shape validation, cache
short-circuit, in-flight guard, then the executed attempt. -/
def fetchService (env : FetchEnv) (key : String) (value : Option String)
    (force : Bool) : FetchResult :=
  match serviceConfigs key with
  | none => ⟨false, [], [], none, false⟩
  | some cfg =>
    if !(hasCredits env.usage) then ⟨false, [], [], some .quota, false⟩
    else
      let qv := deriveQueryValue cfg env value
      if qv = "" ∨ qv.length < minLen cfg.field then
        ⟨false, [], [], some .shape, false⟩
      else if cacheHit env.current qv force then ⟨false, [], [], none, false⟩
      else if env.current.loading then ⟨false, [], [], none, false⟩
      else executeFetch env key cfg qv

/-! Concrete sample data used by witnesses and counterexamples. -/

/-- Sample decoded response body. -/
def sampleData : JsonVal := JsonVal.obj [("ok", JsonVal.bool true)]

/-- Environment with a settled-success state for the sample plate. -/
def envW1 : FetchEnv :=
  ⟨none, some "user1", "ABC-123", "",
    ⟨false, none, some sampleData, none, some "ABC123", some 10⟩,
    .ok (JsonVal.obj []), fun _ => none, 0, 1, 2⟩

/-- Environment with an idle state and an active session. -/
def envW2 : FetchEnv :=
  ⟨none, some "u1", "", "", initialServiceState, .ok sampleData,
    fun _ => none, 0, 1, 5⟩

/-- Environment with an in-flight state for the sample plate. -/
def envW3 : FetchEnv :=
  ⟨none, some "user1", "ABC-123", "",
    ⟨true, none, none, none, some "ABC123", none⟩,
    .ok (JsonVal.obj []), fun _ => none, 0, 1, 2⟩

/-- Snapshot with an exhausted balance. -/
def zeroCredits : UsageSnapshot := ⟨some 0, none, none⟩

/-- Environment with an exhausted balance. -/
def envW4 : FetchEnv :=
  ⟨some zeroCredits, some "user1", "ABC-123", "", initialServiceState,
    .ok (JsonVal.obj []), fun _ => none, 0, 1, 2⟩

/-- Environment with an exhausted balance and an incomplete plate input. -/
def envW5 : FetchEnv :=
  ⟨some zeroCredits, some "user1", "AB", "", initialServiceState,
    .ok (JsonVal.obj []), fun _ => none, 0, 1, 2⟩

/-- Sample identity response payload for the enricher. -/
def dniPayload : JsonVal :=
  JsonVal.obj [("datos", JsonVal.obj
    [("nombres", JsonVal.str "Ana"), ("apellido_paterno", JsonVal.str "Lopez")])]

/-- Identity-lookup oracle failing for exactly one document number. -/
def lookup0 (s : String) : Option JsonVal :=
  if s = "11111111" then none else some dniPayload

/-- Owner without a name, enrichable document. -/
def owner1 : SunarpOwner := ⟨"", some "22222222", none, none, none⟩

/-- Owner whose identity lookup fails. -/
def owner2 : SunarpOwner := ⟨"Juan Perez", some "11111111", none, none, none⟩

/-- Owner with an authoritative name and an enrichable document. -/
def owner3 : SunarpOwner := ⟨"Maria", some "33333333", none, none, none⟩

/-- Three-owner ownership record for the enricher scenario. -/
def sun0 : SunarpData :=
  ⟨[owner1, owner2, owner3], [], none, none, "", "", "", "", none, false, ""⟩

/-- Payload whose only extractable ownership field is the owner document. -/
def dniOnlyPayload : JsonVal :=
  JsonVal.obj [("dni_propietario", JsonVal.str "12345678")]

theorem remFirstDash_length_le (l : List Char) :
    (remFirstDash l).length ≤ l.length := by
  induction l with
  | nil => simp [remFirstDash]
  | cons c t ih =>
    by_cases hc : (c == '-') = true
    · simp [remFirstDash, hc]
    · have hcf : (c == '-') = false := eq_false_of_ne_true hc
      simp [remFirstDash, hcf, List.length_cons]
      omega

theorem remFirstDash_length_of_mem (l : List Char) (h : '-' ∈ l) :
    (remFirstDash l).length + 1 = l.length := by
  induction l with
  | nil => cases h
  | cons c t ih =>
    by_cases hc : c = '-'
    · simp [remFirstDash, hc]
    · have ht : '-' ∈ t := by
        rcases List.mem_cons.mp h with h1 | h2
        · exact absurd h1.symm hc
        · exact h2
      have hbe : (c == '-') = false := beq_eq_false_iff_ne.mpr hc
      have hih := ih ht
      simp [remFirstDash, hbe, List.length_cons]
      omega

theorem remFirstDash_plate_core (clean : List Char) (h6 : clean.length ≤ 6) :
    (remFirstDash (clean.take 3 ++ (if 3 < clean.length then ['-'] else []) ++
      (clean.drop 3).take 3)).length ≤ 6 := by
  by_cases h3 : 3 < clean.length
  · rw [if_pos h3]
    have hm : '-' ∈ clean.take 3 ++ ['-'] ++ (clean.drop 3).take 3 := by simp
    have he := remFirstDash_length_of_mem _ hm
    simp only [List.length_append, List.length_take, List.length_drop,
      List.length_cons, List.length_nil] at he
    omega
  · rw [if_neg h3]
    have he := remFirstDash_length_le
      (clean.take 3 ++ [] ++ (clean.drop 3).take 3)
    simp only [List.length_append, List.length_take, List.length_drop,
      List.length_nil] at he
    omega

theorem derived_plate_len (p : String) :
    (removeFirstDash (formatPlate p)).length ≤ 6 := by
  have h6 : (((p.data.filter isAlnum).map upC).take 6).length ≤ 6 := by
    simp [List.length_take]
  exact remFirstDash_plate_core _ h6

/-- C1: a non-forced issue whose query value equals the stored query of a
settled-success state makes no transport call, performs no state write and
no ledger write, reusing the stored result. -/
theorem fetchService_cache_short_circuit
    (env : FetchEnv) (key : String) (value : Option String)
    (cfg : ServiceConfig) (qv : String)
    (hc : serviceConfigs key = some cfg)
    (hqv : deriveQueryValue cfg env value = qv)
    (hne : qv ≠ "") (hlen : minLen cfg.field ≤ qv.length)
    (hquery : env.current.query = some qv)
    (hdata : jsTruthyOpt env.current.data = true)
    (herr : truthyS env.current.error = false)
    (hload : env.current.loading = false) :
    (fetchService env key value false).calledTransport = false ∧
    (fetchService env key value false).writes = [] ∧
    (fetchService env key value false).ledger = [] := by
  have hshape : ¬(qv = "" ∨ qv.length < minLen cfg.field) := by
    push_neg
    exact ⟨hne, hlen⟩
  have hch : cacheHit env.current qv false = true := by
    simp [cacheHit, hquery, hdata, herr, hload]
  cases hg : hasCredits env.usage with
  | false => simp [fetchService, hc, hg]
  | true => simp [fetchService, hc, hg, hqv, hshape, hch]

/-- Witness for C1 at a concrete settled-success environment. -/
theorem cache_short_circuit_witness :
    serviceConfigs "soat" = some soatConfig ∧
    deriveQueryValue soatConfig envW1 none = "ABC123" ∧
    envW1.current.query = some "ABC123" ∧
    ((fetchService envW1 "soat" none false).calledTransport = false ∧
     (fetchService envW1 "soat" none false).writes = [] ∧
     (fetchService envW1 "soat" none false).ledger = []) :=
  ⟨rfl, rfl, rfl,
    fetchService_cache_short_circuit envW1 "soat" none soatConfig "ABC123"
      rfl rfl (by decide) (by decide) rfl rfl rfl rfl⟩

/-- C2 counterexample: an attempt that passes the credit gate and the shape
validation but hits the cache writes no ledger entry at all. -/
theorem ledger_skipped_on_cache_hit :
    hasCredits envW1.usage = true ∧
    6 ≤ (deriveQueryValue soatConfig envW1 none).length ∧
    (fetchService envW1 "soat" none false).ledger = [] ∧
    (fetchService envW1 "soat" none false).calledTransport = false :=
  ⟨rfl, by decide, rfl, rfl⟩

/-- C2 amended: every attempt that passes the credit gate and the shape
validation, is not short-circuited by the cache or the in-flight guard, and
runs with a session user id, writes exactly one ledger entry carrying the
query value, response, success flag, error code, duration and endpoint,
followed by a usage refresh. -/
theorem ledger_written_once_per_executed_attempt
    (env : FetchEnv) (key : String) (value : Option String) (force : Bool)
    (cfg : ServiceConfig) (qv : String) (uid : String)
    (hc : serviceConfigs key = some cfg)
    (hqv : deriveQueryValue cfg env value = qv)
    (hg : hasCredits env.usage = true)
    (hne : qv ≠ "") (hlen : minLen cfg.field ≤ qv.length)
    (hch : cacheHit env.current qv force = false)
    (hload : env.current.loading = false)
    (hs : env.sessionUserId = some uid) (huid : uid ≠ "") :
    (fetchService env key value force).ledger.length = 1 ∧
    (∀ e ∈ (fetchService env key value force).ledger,
      e.payloadValue = qv ∧ e.payloadField = cfg.field ∧
      e.rawPath = cfg.endpoint ∧ e.serviceKey = key ∧
      e.durationMs = env.ledgerAt - env.startedAt ∧
      e.success = transportOk env.transport ∧
      (e.errorCode = none ↔ transportOk env.transport = true) ∧
      e.respuesta = (match env.transport with
        | .ok d => some d
        | .fail _ => none)) ∧
    (fetchService env key value force).refreshedUsage = true := by
  have hshape : ¬(qv = "" ∨ qv.length < minLen cfg.field) := by
    push_neg
    exact ⟨hne, hlen⟩
  have hses : sessionActive env = true := by
    simp [sessionActive, hs, huid]
  have hfs : fetchService env key value force = executeFetch env key cfg qv := by
    simp [fetchService, hc, hg, hqv, hshape, hch, hload]
  rw [hfs]
  cases ht : env.transport with
  | ok data => simp [executeFetch, hses, ht, transportOk]
  | fail msg => simp [executeFetch, hses, ht, transportOk]

/-- Witness for the amended C2 at a concrete executed attempt. -/
theorem ledger_written_once_witness :
    hasCredits envW2.usage = true ∧
    cacheHit envW2.current "ABC123" false = false ∧
    ((fetchService envW2 "soat" (some "ABC123") false).ledger.length = 1 ∧
     (∀ e ∈ (fetchService envW2 "soat" (some "ABC123") false).ledger,
       e.payloadValue = "ABC123" ∧ e.payloadField = soatConfig.field ∧
       e.rawPath = soatConfig.endpoint ∧ e.serviceKey = "soat" ∧
       e.durationMs = envW2.ledgerAt - envW2.startedAt ∧
       e.success = transportOk envW2.transport ∧
       (e.errorCode = none ↔ transportOk envW2.transport = true) ∧
       e.respuesta = (match envW2.transport with
         | .ok d => some d
         | .fail _ => none)) ∧
     (fetchService envW2 "soat" (some "ABC123") false).refreshedUsage = true) :=
  ⟨rfl, rfl,
    ledger_written_once_per_executed_attempt envW2 "soat" (some "ABC123") false
      soatConfig "ABC123" "u1" rfl rfl rfl (by decide) (by decide) rfl rfl rfl
      (by decide)⟩

/-- C3 counterexample: a forced issue finding an in-flight state makes no
transport call even though the gate passes and the shape is valid. -/
theorem forced_issue_inflight_no_call :
    hasCredits envW3.usage = true ∧
    envW3.current.loading = true ∧
    (fetchService envW3 "soat" (some "ABC123") true).calledTransport = false :=
  ⟨rfl, rfl, rfl⟩

/-- C3 amended: a forced issue that passes the credit gate and the shape
validation makes a transport call regardless of the settled cache state,
provided no call for that id is in flight. -/
theorem forced_issue_calls_transport
    (env : FetchEnv) (key : String) (value : Option String)
    (cfg : ServiceConfig) (qv : String)
    (hc : serviceConfigs key = some cfg)
    (hqv : deriveQueryValue cfg env value = qv)
    (hg : hasCredits env.usage = true)
    (hne : qv ≠ "") (hlen : minLen cfg.field ≤ qv.length)
    (hload : env.current.loading = false) :
    (fetchService env key value true).calledTransport = true := by
  have hshape : ¬(qv = "" ∨ qv.length < minLen cfg.field) := by
    push_neg
    exact ⟨hne, hlen⟩
  have hch : cacheHit env.current qv true = false := by
    simp [cacheHit]
  cases ht : env.transport with
  | ok data =>
    simp [fetchService, hc, hg, hqv, hshape, hch, hload, executeFetch, ht]
  | fail msg =>
    simp [fetchService, hc, hg, hqv, hshape, hch, hload, executeFetch, ht]

/-- Witness for the amended C3 at a settled-success same-value state. -/
theorem forced_issue_calls_transport_witness :
    hasCredits envW1.usage = true ∧ envW1.current.loading = false ∧
    envW1.current.query = some "ABC123" ∧
    (fetchService envW1 "soat" (some "ABC123") true).calledTransport = true :=
  ⟨rfl, rfl, rfl,
    forced_issue_calls_transport envW1 "soat" (some "ABC123") soatConfig
      "ABC123" rfl rfl rfl (by decide) (by decide) rfl⟩

/-- C4: a gate-blocked issue makes no transport call, writes no state and
writes no ledger entry. -/
theorem gate_block_no_ledger_no_transition
    (env : FetchEnv) (key : String) (value : Option String) (force : Bool)
    (u : UsageSnapshot) (c : Int)
    (hu : env.usage = some u) (hcr : u.creditsRemaining = some c)
    (hc0 : c ≤ 0) :
    (fetchService env key value force).calledTransport = false ∧
    (fetchService env key value force).writes = [] ∧
    (fetchService env key value force).ledger = [] := by
  have hg : hasCredits env.usage = false := by
    simp [hasCredits, hu, hcr]
    omega
  cases hck : serviceConfigs key with
  | none => simp [fetchService, hck]
  | some cfg => simp [fetchService, hck, hg]

/-- Witness for C4 at a zero-credit snapshot. -/
theorem gate_block_witness :
    envW4.usage = some zeroCredits ∧ zeroCredits.creditsRemaining = some 0 ∧
    ((fetchService envW4 "soat" none false).calledTransport = false ∧
     (fetchService envW4 "soat" none false).writes = [] ∧
     (fetchService envW4 "soat" none false).ledger = []) :=
  ⟨rfl, rfl,
    gate_block_no_ledger_no_transition envW4 "soat" none false zeroCredits 0
      rfl rfl (by decide)⟩

/-- C5 counterexample: with an exhausted balance and an invalid derived
shape the quota alert is surfaced, showing the gate is checked before the
shape validation rather than after it. -/
theorem gate_checked_before_validation :
    (deriveQueryValue soatConfig envW5 none).length < 6 ∧
    hasCredits envW5.usage = false ∧
    (fetchService envW5 "soat" none false).alert = some AlertKind.quota :=
  ⟨by decide, rfl, rfl⟩

/-- C5 amended: shape validation runs after the credit gate; once the gate
passes, an invalid shape aborts before any state write, transport call or
ledger write, surfacing the validation alert; derived plate values have at
most six characters after dash removal and derived document values at most
eight digits, so passing the length check means exactly six or eight. -/
theorem invalid_shape_aborts_after_gate
    (env : FetchEnv) (key : String) (value : Option String) (force : Bool)
    (cfg : ServiceConfig) (qv : String)
    (hc : serviceConfigs key = some cfg)
    (hqv : deriveQueryValue cfg env value = qv)
    (hg : hasCredits env.usage = true)
    (hbad : qv = "" ∨ qv.length < minLen cfg.field) :
    ((fetchService env key value force).alert = some AlertKind.shape ∧
     (fetchService env key value force).calledTransport = false ∧
     (fetchService env key value force).writes = [] ∧
     (fetchService env key value force).ledger = []) ∧
    (∀ p : String, (removeFirstDash (formatPlate p)).length ≤ 6) ∧
    (∀ d : String, (formatDni d).length ≤ 8 ∧
      ∀ c ∈ (formatDni d).data, c.isDigit = true) := by
  refine ⟨?_, ?_, ?_⟩
  · simp [fetchService, hc, hg, hqv, hbad]
  · intro p
    exact derived_plate_len p
  · intro d
    constructor
    · simp [formatDni, List.length_take]
    · intro c hm
      have hm2 : c ∈ d.data.filter Char.isDigit :=
        List.take_subset 8 (d.data.filter Char.isDigit) hm
      exact (List.mem_filter.mp hm2).2

/-- Witness for the amended C5 at a concrete too-short plate input. -/
theorem invalid_shape_aborts_witness :
    hasCredits envW2.usage = true ∧
    (deriveQueryValue soatConfig envW2 none = "") ∧
    (((fetchService envW2 "soat" none false).alert = some AlertKind.shape ∧
      (fetchService envW2 "soat" none false).calledTransport = false ∧
      (fetchService envW2 "soat" none false).writes = [] ∧
      (fetchService envW2 "soat" none false).ledger = []) ∧
     (∀ p : String, (removeFirstDash (formatPlate p)).length ≤ 6) ∧
     (∀ d : String, (formatDni d).length ≤ 8 ∧
       ∀ c ∈ (formatDni d).data, c.isDigit = true)) :=
  ⟨rfl, rfl,
    invalid_shape_aborts_after_gate envW2 "soat" none false soatConfig ""
      rfl rfl rfl (Or.inl rfl)⟩

/-- C9: without a loaded usage snapshot the credit check returns true and
every fetchService run behaves exactly as with an unmetered snapshot. -/
theorem gate_fails_open_without_snapshot :
    hasCredits none = true ∧
    ∀ (env : FetchEnv) (key : String) (value : Option String) (force : Bool),
      fetchService { env with usage := none } key value force =
        fetchService { env with usage := some ⟨none, none, none⟩ } key value
          force := by
  refine ⟨rfl, ?_⟩
  intro env key value force
  rcases env with ⟨usage, sess, plate, doc, cur, tr, lk, t0, t1, t2⟩
  cases hck : serviceConfigs key with
  | none => simp [fetchService, hck]
  | some cfg =>
    simp [fetchService, hck, hasCredits, deriveQueryValue, executeFetch,
      sessionActive, loadingWrite]

theorem mem_tabCols_ne_empty {s l : String} (h : s ∈ tabCols l) : s ≠ "" := by
  unfold tabCols at h
  exact bne_iff_ne.mp (List.mem_filter.mp h).2

theorem itvEstadoText_ne_empty (raw : String) (full : JsonVal) {s : String}
    (h : itvEstadoText raw full = some s) : s ≠ "" := by
  have hmem : s ∈ itvTokens raw full := by
    unfold itvEstadoText at h
    cases h5 : (itvTokens raw full).get? 5 with
    | some x =>
      rw [h5] at h
      cases h
      exact List.get?_mem h5
    | none =>
      rw [h5] at h
      exact List.get?_mem h
  unfold itvTokens at hmem
  cases hr : itvRow raw full with
  | some r =>
    rw [hr] at hmem
    exact mem_tabCols_ne_empty hmem
  | none =>
    rw [hr] at hmem
    cases hmem

theorem itvVigenteFlag_eq (full : JsonVal) (b : Bool) :
    itvVigenteFlag full = some b ↔ getField full "vigente" = some (.bool b) := by
  unfold itvVigenteFlag
  cases hg : getField full "vigente" with
  | none => simp
  | some v => cases v <;> simp

/-- C7: in the inspection normalizer the textual status always wins for the
estado field; when no textual status exists, the boolean validity flag
true or false yields estado Vigente or Vencido respectively. -/
theorem itv_status_priority :
    (∀ raw full s, itvEstadoText raw full = some s →
      (parseItv raw full).map ItvData.estado = some (some s)) ∧
    (∀ raw full, itvEstadoText raw full = none →
      itvVigenteFlag full = some true →
      (parseItv raw full).map ItvData.estado = some (some "Vigente")) ∧
    (∀ raw full, itvEstadoText raw full = none →
      itvVigenteFlag full = some false →
      (parseItv raw full).map ItvData.estado = some (some "Vencido")) := by
  refine ⟨?_, ?_, ?_⟩
  · intro raw full s h
    have hs : s ≠ "" := itvEstadoText_ne_empty raw full h
    have htr : truthyS (itvEstadoText raw full) = true := by
      simp [h, truthyS, hs]
    simp only [parseItv, htr, Bool.or_true, Bool.true_or, if_true,
      Option.map_some]
    simp [orStr, truthyS, bne_iff_ne, hs, h]
  · intro raw full h hv
    have hgf : getField full "vigente" = some (.bool true) :=
      (itvVigenteFlag_eq full true).mp hv
    have hvig : itvVigencia raw full = some "Vigente" := by
      simp [itvVigencia, hgf]
    have htr : truthyS (itvVigencia raw full) = true := by
      simp [hvig, truthyS]
    simp only [parseItv, htr, Bool.or_true, Bool.true_or, if_true,
      Option.map_some]
    simp [orStr, truthyS, h, hvig]
  · intro raw full h hv
    have hgf : getField full "vigente" = some (.bool false) :=
      (itvVigenteFlag_eq full false).mp hv
    have hvig : itvVigencia raw full = some "Vencido" := by
      simp [itvVigencia, hgf]
    have htr : truthyS (itvVigencia raw full) = true := by
      simp [hvig, truthyS]
    simp only [parseItv, htr, Bool.or_true, Bool.true_or, if_true,
      Option.map_some]
    simp [orStr, truthyS, h, hvig]

/-- Witness for C7: a row with a textual status beats a false flag, and a
payload with a true flag and no matching row yields estado Vigente. -/
theorem itv_status_priority_witness :
    (itvEstadoText "ABC\tC1\t01/01/2024\t02/02/2024\tAPROBADO\tVIGENTE"
        (JsonVal.obj [("vigente", JsonVal.bool false)]) = some "VIGENTE" ∧
      (parseItv "ABC\tC1\t01/01/2024\t02/02/2024\tAPROBADO\tVIGENTE"
          (JsonVal.obj [("vigente", JsonVal.bool false)])).map ItvData.estado =
        some (some "VIGENTE")) ∧
    (itvEstadoText "01/01/2024 hola 02/02/2024"
        (JsonVal.obj [("vigente", JsonVal.bool true)]) = none ∧
      (parseItv "01/01/2024 hola 02/02/2024"
          (JsonVal.obj [("vigente", JsonVal.bool true)])).map ItvData.estado =
        some (some "Vigente")) :=
  ⟨⟨rfl, itv_status_priority.1 _ _ "VIGENTE" rfl⟩,
   ⟨rfl, itv_status_priority.2.1 _ _ rfl rfl⟩⟩

theorem iteSomeNoneEqNone {α : Type} (c : Bool) (r : α) :
    (if c then some r else none) = none ↔ c = false := by
  cases c <;> simp

theorem iteNoneSomeEqNone {α : Type} (c : Bool) (r : α) :
    (if c then none else some r) = none ↔ c = true := by
  cases c <;> simp

theorem isSomeEqFalse {α : Type} (o : Option α) :
    (o.isSome = false) ↔ o = none := by
  cases o <;> simp

/-- C6 counterexample: a payload whose owner-document field is extractable
still normalizes to the null signal, because the null decision ignores it. -/
theorem sunarp_null_despite_extractable_field :
    sunarpDniPropietario dniOnlyPayload = some "12345678" ∧
    parseSunarp "" dniOnlyPayload = none :=
  ⟨rfl, rfl⟩

/-- C6 amended: the null decision of each normalizer checks a fixed set of
key fields rather than every field of interest. parseSoat is null exactly
when no sufficient tabular row exists, even when the updated-info field was
extracted; parseItv is null exactly when no date, status, inferred status
or center was found; parseSunarp is null exactly when owners, coincidences,
plate, vin, registry entry and office are all absent, even when the owner
document or captcha fields were extracted; the license, identity and debt
normalizers are never null. -/
theorem normalizer_null_policy :
    (∀ raw, parseSoat raw = none ↔
      (soatRow (trimmedLines raw) = none ∨
        ∃ row, soatRow (trimmedLines raw) = some row ∧
          (tabCols row).length < 8)) ∧
    (∀ raw full, parseItv raw full = none ↔
      (truthyS ((itvTokens raw full).get? 2) = false ∧
       truthyS ((itvTokens raw full).get? 3) = false ∧
       truthyS (itvFallbackInicio raw) = false ∧
       truthyS (itvFallbackFin raw) = false ∧
       truthyS (itvEstadoText raw full) = false ∧
       truthyS (itvVigencia raw full) = false ∧
       itvCentro raw = none)) ∧
    (∀ raw full, parseSunarp raw full = none ↔
      (sunarpPropietarios raw full = [] ∧ sunarpCoincidencias full = [] ∧
       sunarpPlaca full = "" ∧ sunarpVin full = "" ∧
       sunarpPartida full = "" ∧ sunarpOficina full = "")) ∧
    (∀ raw full, (runParser "licencia" raw full).isSome = true ∧
      (runParser "dniperu" raw full).isSome = true ∧
      (runParser "redam" raw full).isSome = true) := by
  refine ⟨?_, ?_, ?_, fun raw full => ⟨rfl, rfl, rfl⟩⟩
  · intro raw
    unfold parseSoat
    cases h : soatRow (trimmedLines raw) with
    | none => simp [h]
    | some row =>
      by_cases hlt : (tabCols row).length < 8
      · simp [h, hlt]
      · simp [h, hlt]
  · intro raw full
    simp only [parseItv]
    rw [iteSomeNoneEqNone]
    simp [Bool.or_eq_false_iff, isSomeEqFalse, and_assoc]
  · intro raw full
    simp only [parseSunarp]
    rw [iteNoneSomeEqNone]
    simp only [Bool.and_eq_true, Bool.not_eq_true', Bool.or_eq_false_iff,
      List.isEmpty_iff, bne_eq_false_iff_eq, and_assoc]

/-- C10: the license, identity and debt normalizers return a record for
every input, never the null signal, and on empty raw text and an empty
payload every field defaults to the empty string, empty array or zero. -/
theorem person_normalizers_never_null :
    (∀ raw full, (runParser "licencia" raw full).isSome = true) ∧
    (∀ raw full, (runParser "dniperu" raw full).isSome = true) ∧
    (∀ raw full, (runParser "redam" raw full).isSome = true) ∧
    parseLicencia "" (JsonVal.obj []) =
      ⟨"", "", "", "", "", "", "", "", "", "", .arr [], .arr []⟩ ∧
    parseDniPeru "" (JsonVal.obj []) = ⟨"", "", "", "", ""⟩ ∧
    parseRedam "" (JsonVal.obj []) = ⟨0, []⟩ :=
  ⟨fun _ _ => rfl, fun _ _ => rfl, fun _ _ => rfl, rfl, rfl, rfl⟩

/-- C8: an owner whose identity lookup fails is returned unchanged, and the
enricher always returns the record with every owner mapped independently
through its own lookup, preserving order and count. -/
theorem enricher_partial_failure (lookup : String → Option JsonVal)
    (p : SunarpData) (prop : SunarpOwner)
    (hfail : lookup (formatDni (prop.documento.getD "")) = none) :
    enrichOwner lookup prop = prop ∧
    enrichSunarpWithDni lookup (some p) =
      some { p with propietarios := p.propietarios.map (enrichOwner lookup) } := by
  constructor
  · simp only [enrichOwner, hfail]
    split <;> rfl
  · rcases p with ⟨props, c, d, pu, pl, vi, pa, o, cd, cv, im⟩
    cases props with
    | nil => rfl
    | cons h t => rfl

/-- Witness for C8: three owners, the middle lookup fails and that owner is
unchanged, the other two are enriched through their own lookups. -/
theorem enricher_partial_failure_witness :
    lookup0 (formatDni (owner2.documento.getD "")) = none ∧
    ((enrichOwner lookup0 owner2 = owner2 ∧
      enrichSunarpWithDni lookup0 (some sun0) =
        some { sun0 with
          propietarios := sun0.propietarios.map (enrichOwner lookup0) }) ∧
     (enrichOwner lookup0 owner1).nombre = "Ana Lopez" ∧
     (enrichOwner lookup0 owner1).reniec =
       some ⟨⟨"Ana", "Lopez", "", "", ""⟩, some "22222222"⟩ ∧
     (enrichOwner lookup0 owner3).nombre = "Maria" ∧
     (enrichOwner lookup0 owner3).reniec =
       some ⟨⟨"Ana", "Lopez", "", "", ""⟩, some "33333333"⟩) :=
  ⟨rfl, enricher_partial_failure lookup0 sun0 owner2 rfl, rfl, rfl, rfl, rfl⟩
